import Mathlib

/-!
Verification of the HIPAA compliance core of the baseskel repository.

The Python sources embedded here are:
- src/backend/hipaa_compliance.py  (HIPAAEncryption, HIPAAAuditLogger,
  HIPAAValidator, HIPAADataRetention)
- src/backend/file_handler.py      (HIPAAFileHandler)

Conventions of the embedding:
- Python str values are Lean String; Optional[str] is Option String.
- Python dicts (insertion ordered) are association lists List (String × _).
- Fallible Python code returns Except; an uncaught Python exception is an
  Except.error value.
- The Fernet cipher object from the third-party cryptography library is an
  abstract parameter (structure FernetCipher); theorems about code built on
  top of it take the library's documented behaviour as explicit hypotheses.
-/

set_option maxHeartbeats 1000000

namespace BaseSkel

/-! ## Crypto Engine — src/backend/hipaa_compliance.py, class HIPAAEncryption -/

/-- Abstract interface of the `cryptography.fernet.Fernet` object stored in
`HIPAAEncryption.cipher_suite`.  `enc` is `cipher_suite.encrypt` (total);
`dec` is `cipher_suite.decrypt`, which raises (here: returns `Except.error`
carrying the exception text) on malformed or tampered tokens. -/
structure FernetCipher where
  enc : String → String
  dec : String → Except String String

/-- Embedding of `HIPAAEncryption.encrypt_phi` (hipaa_compliance.py lines
73-77):  `if not data: return data` passes `None` and `""` through unchanged,
otherwise the Fernet ciphertext is returned. -/
def encrypt_phi (c : FernetCipher) (data : Option String) : Option String :=
  match data with
  | none => none
  | some s => if s = "" then some "" else some (c.enc s)

/-- Embedding of `HIPAAEncryption.decrypt_phi` (hipaa_compliance.py lines
79-87): falsy input passes through; otherwise `cipher_suite.decrypt` is
attempted and any exception is caught, logged, and replaced by
`ValueError("Invalid encrypted data")` — the original detail is not
forwarded. -/
def decrypt_phi (c : FernetCipher) (encrypted_data : Option String) :
    Except String (Option String) :=
  match encrypted_data with
  | none => Except.ok none
  | some s =>
    if s = "" then Except.ok (some "")
    else
      match c.dec s with
      | Except.ok plain => Except.ok (some plain)
      | Except.error _ => Except.error "Invalid encrypted data"

/-- A Python runtime error that is not an application-level exception. -/
inductive PyRuntimeError where
  | nameError (missing : String)
deriving DecidableEq, Repr

/-- Embedding of `HIPAAEncryption.hash_phi` (hipaa_compliance.py lines
89-93).  The body is `return hashlib.sha256(data.encode()).hexdigest()`, but
`hipaa_compliance.py` never imports `hashlib` (its imports are logging,
datetime, typing, cryptography, base64, os, pydantic, enum), so for every
non-empty input the name lookup fails at call time with
`NameError: name 'hashlib' is not defined`.  The falsy guard
`if not data: return data` still returns `""` unchanged. -/
def hash_phi (data : String) : Except PyRuntimeError String :=
  if data = "" then Except.ok data
  else Except.error (PyRuntimeError.nameError "hashlib")

/-- Demonstration cipher used to instantiate the abstract `FernetCipher`
hypotheses in witnesses: encryption prepends a tag character, decryption
strips it and rejects inputs that do not carry it. -/
def demoEnc (s : String) : String := String.mk (List.cons 'T' s.data)

/-- Decryption side of the demonstration cipher. -/
def demoDec (s : String) : Except String String :=
  match s.data with
  | List.cons 'T' rest => Except.ok (String.mk rest)
  | _ => Except.error "InvalidToken"

/-- The demonstration cipher. -/
def demoCipher : FernetCipher := ⟨demoEnc, demoDec⟩

/-- The demonstration cipher satisfies the Fernet round-trip law. -/
theorem demoCipher_roundtrip (s : String) :
    demoCipher.dec (demoCipher.enc s) = Except.ok s := rfl

/-- The demonstration cipher never produces an empty token (Fernet tokens
are never empty either). -/
theorem demoCipher_ne_empty (s : String) : demoCipher.enc s ≠ "" := by
  intro h
  exact List.noConfusion (congrArg String.data h)

/-! ## PHI Classifier — src/backend/hipaa_compliance.py, class HIPAAValidator -/

/-- The sensitive-field vocabulary of `HIPAAValidator.is_phi_data`
(hipaa_compliance.py lines 173-177): 14 field names. -/
def phi_fields_classifier : List String :=
  ["name", "email", "phone", "address", "ssn", "medical_record_number",
   "date_of_birth", "medical_condition", "diagnosis", "treatment",
   "medication", "doctor_name", "hospital_name", "insurance_info"]

/-- The sensitive-field vocabulary of
`HIPAAValidator.sanitize_phi_for_logging` (hipaa_compliance.py lines
202-205): only 10 field names — it omits `medication`, `doctor_name`,
`hospital_name` and `insurance_info`, which `is_phi_data` does include. -/
def phi_fields_sanitize : List String :=
  ["name", "email", "phone", "address", "ssn", "medical_record_number",
   "date_of_birth", "medical_condition", "diagnosis", "treatment"]

/-- Model of Python's `str.lower()` for the ASCII field names involved:
character-wise lower-casing.  (Defined over the character list so that it
evaluates by kernel reduction.) -/
def strToLower (s : String) : String := String.mk (s.data.map Char.toLower)

/-- A Python value as it appears in the dict records handled by the
validator: a string or a number. -/
inductive PyVal where
  | s (v : String)
  | i (v : Int)
deriving DecidableEq, Repr

/-- Embedding of `HIPAAValidator.is_phi_data` (hipaa_compliance.py lines
170-180): the intersection of the vocabulary with the lower-cased keys is
non-empty iff some key's lower-casing is in the vocabulary. -/
def is_phi_data (data : List (String × PyVal)) : Bool :=
  data.any (fun kv => phi_fields_classifier.contains (strToLower kv.fst))

/-- Embedding of the `role_permissions` dict lookup (with default `[]`) in
`HIPAAValidator.validate_minimum_necessary` (hipaa_compliance.py lines
185-192). -/
def role_permissions (user_role : String) : List String :=
  if user_role = "admin" then ["*"]
  else if user_role = "physician" then
    ["name", "email", "phone", "medical_condition", "diagnosis", "treatment"]
  else if user_role = "staff" then ["name", "email", "phone"]
  else if user_role = "patient" then
    ["name", "email", "phone", "medical_condition"]
  else []

/-- Embedding of `HIPAAValidator.validate_minimum_necessary`
(hipaa_compliance.py lines 182-197). -/
def validate_minimum_necessary (requested_fields : List String)
    (user_role : String) : List String :=
  let allowed_fields := role_permissions user_role
  if allowed_fields.contains "*" then requested_fields
  else requested_fields.filter (fun f => allowed_fields.contains f)

/-- Embedding of `HIPAAValidator.sanitize_phi_for_logging`
(hipaa_compliance.py lines 199-214): a new dict with the same keys in the
same order, where values of keys whose lower-casing is in
`phi_fields_sanitize` are replaced by the redaction marker. -/
def sanitize_phi_for_logging (data : List (String × PyVal)) :
    List (String × PyVal) :=
  data.map (fun kv =>
    if phi_fields_sanitize.contains (strToLower kv.fst) then
      (kv.fst, PyVal.s "[PHI_REDACTED]")
    else kv)

/-! ## Audit Ledger — src/backend/hipaa_compliance.py, class HIPAAAuditLogger -/

/-- Embedding of the `AuditLog` pydantic model (hipaa_compliance.py lines
38-51).  `event_type` holds the string value of the `AuditEventType` str
enum. -/
structure AuditLog where
  timestamp : String
  event_type : String
  user_email : Option String
  ip_address : Option String
  user_agent : Option String
  resource_type : Option String
  resource_id : Option String
  action : String
  outcome : String
  phi_involved : Bool
  details : List (String × PyVal)
deriving DecidableEq, Repr

/-- Observable effects of one `HIPAAAuditLogger.log_event` call. -/
structure LogEffects where
  file_log_level : String
  db_insert_attempted : Bool
  critical_logged : Bool
deriving DecidableEq, Repr

/-- Embedding of `HIPAAAuditLogger.log_event` (hipaa_compliance.py lines
112-133).  The whole body sits inside a try/except: a log line is written
at a level chosen from the outcome, then the row is inserted into
`hipaa_audit_logs`; `insert_throws` says whether that insert raises.  The
except-handler writes a critical log line and swallows the exception, so
`log_event` always returns `Except.ok`. -/
def log_event (audit_log : AuditLog) (insert_throws : Bool) :
    Except String LogEffects :=
  let lvl := if audit_log.outcome = "FAILURE" then "ERROR"
             else if audit_log.outcome = "WARNING" then "WARNING"
             else "INFO"
  if insert_throws then Except.ok ⟨lvl, true, true⟩
  else Except.ok ⟨lvl, true, false⟩

/-! ## File Ingestion Pipeline — src/backend/file_handler.py -/

/-- `MAX_FILE_SIZE = 50 * 1024 * 1024` (file_handler.py line 38). -/
def MAX_FILE_SIZE : Nat := 50 * 1024 * 1024

/-- The union of the `ALLOWED_EXTENSIONS` category sets (file_handler.py
lines 39-44), as built by the loop in `validate_file` lines 97-99. -/
def allowed_extensions : List String :=
  [".jpg", ".jpeg", ".png", ".gif", ".bmp", ".tiff", ".webp",
   ".pdf", ".doc", ".docx", ".txt", ".rtf", ".dcm",
   ".zip", ".rar", ".7z"]

/-- `PHI_SENSITIVE_CATEGORIES` (file_handler.py line 50). -/
def PHI_SENSITIVE_CATEGORIES : List String :=
  ["medical_record", "service_record"]

/-- The `expected_mimes` dict of `validate_file` (file_handler.py lines
120-127). -/
def expected_mimes (ext : String) : Option String :=
  if ext = ".pdf" then some "application/pdf"
  else if ext = ".jpg" then some "image/jpeg"
  else if ext = ".jpeg" then some "image/jpeg"
  else if ext = ".png" then some "image/png"
  else if ext = ".gif" then some "image/gif"
  else if ext = ".doc" then some "application/msword"
  else if ext = ".docx" then
    some "application/vnd.openxmlformats-officedocument.wordprocessingml.document"
  else none

/-- Index of the last occurrence of a character, if any. -/
def lastIndexOfChar (cs : List Char) (c : Char) : Option Nat :=
  ((cs.enum.filter (fun p => p.snd = c)).map (fun p => p.fst)).getLast?

/-- Model of `pathlib.Path(name).suffix`: the substring from the last dot
onward, provided that dot is neither the first nor the last character of
the name (pathlib returns "" for names like `.bashrc`, `file.` or `file`). -/
def path_suffix (name : String) : String :=
  match lastIndexOfChar name.data '.' with
  | none => ""
  | some i =>
    if 0 < i ∧ i < name.data.length - 1 then String.mk (name.data.drop i)
    else ""

/-- Model of `m.split('/')[0]`: the characters before the first slash. -/
def mime_main_type (m : String) : String :=
  String.mk (m.data.takeWhile (fun c => c ≠ '/'))

/-- Model of Python's `s.startswith(pre)`. -/
def str_starts_with (s pre : String) : Bool :=
  pre.data.isPrefixOf s.data

/-- Model of Python's substring test `pat in s`. -/
def str_contains_sub (s pat : String) : Bool :=
  s.data.tails.any (fun t => pat.data.isPrefixOf t)

/-- The three `HTTPException`s `validate_file` can raise. -/
inductive ValidationError where
  | tooLarge
  | extNotAllowed (ext : String)
  | mimeMismatch
deriving DecidableEq, Repr

/-- The HTTP status code of each validation error: 413 for the oversized
file, 400 for the other two (file_handler.py lines 90, 102, 130). -/
def ValidationError.status : ValidationError → Nat
  | ValidationError.tooLarge => 413
  | ValidationError.extNotAllowed _ => 400
  | ValidationError.mimeMismatch => 400

/-- The dict returned by `validate_file` (file_handler.py lines 135-139). -/
structure ValidationResult where
  extension : String
  mime_type : String
  size : Option Nat
deriving DecidableEq, Repr

/-- The guard `if file.size and file.size > MAX_FILE_SIZE` (file_handler.py
line 89): it fires only when the size attribute is truthy (present and
non-zero) and exceeds the maximum. -/
def size_check_fails (size : Option Nat) : Bool :=
  match size with
  | none => false
  | some n => if n = 0 then false else decide (n > MAX_FILE_SIZE)

/-- The extension and MIME-consistency checks of `validate_file`
(file_handler.py lines 95-139), after the size guard. -/
def validate_file_checks (size : Option Nat) (filename : String)
    (detected_mime : String) : Except ValidationError ValidationResult :=
  let file_ext := strToLower (path_suffix filename)
  if allowed_extensions.contains file_ext then
    match expected_mimes file_ext with
    | some em =>
      if str_starts_with detected_mime (mime_main_type em) then
        Except.ok ⟨file_ext, detected_mime, size⟩
      else Except.error ValidationError.mimeMismatch
    | none => Except.ok ⟨file_ext, detected_mime, size⟩
  else Except.error (ValidationError.extNotAllowed file_ext)

/-- Embedding of `HIPAAFileHandler.validate_file` (file_handler.py lines
85-139).  `size` is the `UploadFile.size` attribute (FastAPI may leave it
None); `detected_mime` is the result of the MIME sniff of the first 1 KiB
(python-magic or the mimetypes fallback), passed in as a parameter because
it is read from the environment. -/
def validate_file (size : Option Nat) (filename : String)
    (detected_mime : String) : Except ValidationError ValidationResult :=
  if size_check_fails size then Except.error ValidationError.tooLarge
  else validate_file_checks size filename detected_mime

/-- `medical_keywords` (file_handler.py line 146). -/
def medical_keywords : List String :=
  ["medical", "record", "diagnosis", "treatment", "prescription", "lab",
   "xray", "mri", "ct"]

/-- `service_keywords` (file_handler.py line 151). -/
def service_keywords : List String :=
  ["service", "military", "dd214", "discharge", "veteran"]

/-- Embedding of `HIPAAFileHandler.categorize_file` (file_handler.py lines
141-163). -/
def categorize_file (filename : String) (mime_type : String) : String :=
  let filename_lower := strToLower filename
  if medical_keywords.any (fun k => str_contains_sub filename_lower k) then
    "medical_record"
  else if service_keywords.any (fun k => str_contains_sub filename_lower k) then
    "service_record"
  else if str_starts_with mime_type "image/" then "photo"
  else if mime_type = "application/pdf" ∨ mime_type = "application/msword" ∨
      mime_type = "text/plain" then "document"
  else "other"

/-- An upload request: the `UploadFile` pieces that `upload_file` reads.
`content` is the body, latin1-decoded to a string as the PHI branch of the
code does. -/
structure UploadedFileIn where
  filename : String
  size_attr : Option Nat
  content : String
deriving DecidableEq, Repr

/-- Environment of one `upload_file` call: the MIME sniff result, whether
the two database inserts raise, the request metadata and the generated
identifiers. -/
structure UploadEnv where
  detected_mime : String
  record_insert_throws : Bool
  insert_error_text : String
  audit_insert_throws : Bool
  client_host : String
  user_agent : String
  now : String
  new_id : String
deriving DecidableEq, Repr

/-- The `FileUploadResponse` pydantic model (file_handler.py lines 53-61). -/
structure FileUploadResponse where
  id : String
  original_filename : String
  file_size : Nat
  mime_type : String
  file_category : String
  upload_status : String
  is_phi : Bool
  created_at : String
deriving DecidableEq, Repr

/-- The category `upload_file` ends up using: the caller's, or else the
automatic one (file_handler.py lines 210-211). -/
def chosen_category (file : UploadedFileIn) (env : UploadEnv)
    (file_category0 : Option String) : String :=
  match file_category0 with
  | some cat => cat
  | none => categorize_file file.filename env.detected_mime

/-- Embedding of `HIPAAFileHandler.upload_file` (file_handler.py lines
195-307).  Returns the HTTP result (error = status code) together with the
audit events handed to `log_event` and their effects.  Validation failures
are `HTTPException`s re-raised by the `except HTTPException: raise` clause
with no audit event; any other exception (modelled at its principal throw
point, the `file_uploads` insert) lands in the generic handler, which emits
a FAILURE audit event with `phi_involved=False` hard-coded and raises a
generic 500.  On success a SUCCESS event with `phi_involved=is_phi` is
emitted.  If `log_event` raised, the outer handler would turn the upload
into a 500; the match arms make that path explicit.  The disk write
(encrypting via `encrypt_phi` when `is_phi`) does not affect the response
or the audit stream and is kept as a ghost binding. -/
def upload_file (c : FernetCipher) (file : UploadedFileIn) (env : UploadEnv)
    (contact_id : Option String) (file_category0 : Option String) :
    Except Nat FileUploadResponse × List (AuditLog × LogEffects) :=
  match validate_file file.size_attr file.filename env.detected_mime with
  | Except.error e => (Except.error e.status, [])
  | Except.ok vres =>
    let file_category :=
      match file_category0 with
      | some cat => cat
      | none => categorize_file file.filename vres.mime_type
    let is_phi := PHI_SENSITIVE_CATEGORIES.contains file_category
    let _stored :=
      if is_phi then encrypt_phi c (some file.content) else some file.content
    if env.record_insert_throws then
      let failLog : AuditLog :=
        { timestamp := env.now
          event_type := "system_access"
          user_email := none
          ip_address := some env.client_host
          user_agent := some env.user_agent
          resource_type := some "file_upload"
          resource_id := none
          action := "Failed to upload file: " ++ file.filename
          outcome := "FAILURE"
          phi_involved := false
          details := [("error", PyVal.s env.insert_error_text)] }
      match log_event failLog env.audit_insert_throws with
      | Except.error _ => (Except.error 500, [])
      | Except.ok eff => (Except.error 500, [(failLog, eff)])
    else
      let successLog : AuditLog :=
        { timestamp := env.now
          event_type := if is_phi then "phi_create" else "system_access"
          user_email := none
          ip_address := some env.client_host
          user_agent := some env.user_agent
          resource_type := some "file_upload"
          resource_id := some env.new_id
          action := "Uploaded file: " ++ file.filename
          outcome := "SUCCESS"
          phi_involved := is_phi
          details := [("file_category", PyVal.s file_category),
                      ("file_size", PyVal.i file.content.length),
                      ("mime_type", PyVal.s vres.mime_type)] }
      match log_event successLog env.audit_insert_throws with
      | Except.error _ => (Except.error 500, [])
      | Except.ok eff =>
        (Except.ok
          { id := env.new_id
            original_filename := file.filename
            file_size := file.content.length
            mime_type := vres.mime_type
            file_category := file_category
            upload_status := "uploaded"
            is_phi := is_phi
            created_at := env.now }, [(successLog, eff)])

/-- A `file_uploads` metadata row, restricted to the columns `get_file` and
`delete_file` read or write. -/
structure FileRecord where
  id : String
  original_filename : String
  file_path : String
  upload_status : String
  is_phi : Bool
deriving DecidableEq, Repr

/-- Embedding of `HIPAAFileHandler.get_file` (file_handler.py lines
309-333): select all rows with the given id, 404 if the result set is
empty, else return the first row.  Note the select has NO filter on
`upload_status`, so a soft-deleted row is still returned.  (The
`log_file_access` RPC side effect does not alter the result.) -/
def get_file (store : List FileRecord) (file_id : String) :
    Except Nat FileRecord :=
  match store.filter (fun r => r.id == file_id) with
  | [] => Except.error 404
  | r :: _ => Except.ok r

/-- Embedding of `HIPAAFileHandler.delete_file` (file_handler.py lines
370-410): fetch the row via `get_file` (propagating its 404), then set
`upload_status='deleted'` on the matching rows.  The disk wipe and the
audit event do not change the metadata store and are omitted here. -/
def delete_file (store : List FileRecord) (file_id : String) :
    Except Nat (List FileRecord) :=
  match get_file store file_id with
  | Except.error e => Except.error e
  | Except.ok _ =>
    Except.ok (store.map (fun r =>
      if r.id == file_id then { r with upload_status := "deleted" } else r))

/-- Concrete metadata row used to exhibit the delete-then-retrieve bug. -/
def c2Record : FileRecord :=
  { id := "f1"
    original_filename := "scan.pdf"
    file_path := "uploads/medical_record/abc.pdf"
    upload_status := "uploaded"
    is_phi := true }

/-- Concrete upload input used by witnesses: a small valid PDF upload. -/
def demoUploadIn : UploadedFileIn :=
  { filename := "notes.pdf"
    size_attr := some 1000
    content := "PDFDATA" }

/-- Environment where the business insert succeeds and the audit-ledger
insert throws. -/
def demoAuditFailEnv : UploadEnv :=
  { detected_mime := "application/pdf"
    record_insert_throws := false
    insert_error_text := ""
    audit_insert_throws := true
    client_host := "10.0.0.1"
    user_agent := "pytest"
    now := "2024-01-01T00:00:00+00:00"
    new_id := "id-1" }

/-- A PHI-category upload (filename keyword `medical`) whose `file_uploads`
insert throws. -/
def phiUploadIn : UploadedFileIn :=
  { filename := "medical_record.pdf"
    size_attr := some 2048
    content := "PDFDATA" }

/-- Environment where the business insert throws (audit insert fine). -/
def recordFailEnv : UploadEnv :=
  { detected_mime := "application/pdf"
    record_insert_throws := true
    insert_error_text := "insert failed"
    audit_insert_throws := false
    client_host := "10.0.0.1"
    user_agent := "pytest"
    now := "2024-01-01T00:00:00+00:00"
    new_id := "id-2" }

/-- Environment where both inserts succeed. -/
def allOkEnv : UploadEnv :=
  { detected_mime := "application/pdf"
    record_insert_throws := false
    insert_error_text := ""
    audit_insert_throws := false
    client_host := "10.0.0.1"
    user_agent := "pytest"
    now := "2024-01-01T00:00:00+00:00"
    new_id := "id-3" }

/-- The (event, effects) pair the `allOkEnv` upload of `demoUploadIn`
emits: one SUCCESS event for the auto-category "document". -/
def c4WitnessPair : AuditLog × LogEffects :=
  ({ timestamp := "2024-01-01T00:00:00+00:00"
     event_type := "system_access"
     user_email := none
     ip_address := some "10.0.0.1"
     user_agent := some "pytest"
     resource_type := some "file_upload"
     resource_id := some "id-3"
     action := "Uploaded file: notes.pdf"
     outcome := "SUCCESS"
     phi_involved := false
     details := [("file_category", PyVal.s "document"),
                 ("file_size", PyVal.i 7),
                 ("mime_type", PyVal.s "application/pdf")] },
   { file_log_level := "INFO", db_insert_attempted := true,
     critical_logged := false })

/-! ## Retention Scheduler — src/backend/hipaa_compliance.py, class
HIPAADataRetention -/

/-- A `hipaa_data_retention` row.  `rid` is the row's own primary key (the
`record['id']` the status update filters on); dates are abstracted to Nat
(ISO-8601 strings compare lexicographically, hence order-isomorphically). -/
structure RetentionRecord where
  rid : Nat
  table_name : String
  record_id : String
  scheduled_deletion_date : Nat
  status : String
deriving DecidableEq, Repr

/-- The durable state the sweep touches: the retention table and the
subject rows, each identified by (table_name, id). -/
structure RetentionState where
  retention : List RetentionRecord
  rows : List (String × String)
deriving DecidableEq, Repr

/-- The selection predicate of the sweep:
`.eq('status','scheduled').lte('scheduled_deletion_date', current_date)`
(hipaa_compliance.py lines 265-269). -/
def retention_due (now : Nat) (r : RetentionRecord) : Bool :=
  r.status == "scheduled" && decide (r.scheduled_deletion_date ≤ now)

/-- The snapshot the sweep iterates over. -/
def selected_records (now : Nat) (s : RetentionState) : List RetentionRecord :=
  s.retention.filter (retention_due now)

/-- Does a subject row match the sweep's delete filter
`table(record['table_name']).delete().eq('id', record['record_id'])`? -/
def subject_matches (r : RetentionRecord) (p : String × String) : Bool :=
  p.fst == r.table_name && p.snd == r.record_id

/-- The body of the per-record loop of `execute_scheduled_deletions`
(hipaa_compliance.py lines 271-288).  `df rid = true` means the subject
DELETE raises for that retention row, `uf rid = true` means the follow-up
status UPDATE raises; either exception is caught by the per-record
`except`, which logs the error and continues with the next record.  The
Nat component of the accumulator counts subject rows actually removed. -/
def process_retention (df uf : Nat → Bool) (acc : RetentionState × Nat)
    (r : RetentionRecord) : RetentionState × Nat :=
  let s := acc.fst
  if df r.rid then acc
  else
    let removed := (s.rows.filter (fun p => subject_matches r p)).length
    let rows2 := s.rows.filter (fun p => ! subject_matches r p)
    if uf r.rid then ({ s with rows := rows2 }, acc.snd + removed)
    else
      ({ retention := s.retention.map (fun q =>
           if q.rid == r.rid then { q with status := "completed" } else q)
         rows := rows2 }, acc.snd + removed)

/-- Embedding of `HIPAADataRetention.execute_scheduled_deletions`
(hipaa_compliance.py lines 260-288): take the due-and-scheduled snapshot,
then fold the per-record body over it.  The deleted-rows count is a ghost
observation (the Python function returns None). -/
def execute_scheduled_deletions (df uf : Nat → Bool) (now : Nat)
    (s : RetentionState) : RetentionState × Nat :=
  (selected_records now s).foldl (process_retention df uf) (s, 0)

/-- Concrete retention state used by the C9 witness. -/
def c9State : RetentionState :=
  { retention := [{ rid := 1, table_name := "contacts", record_id := "c1",
                    scheduled_deletion_date := 5, status := "scheduled" }]
    rows := [("contacts", "c1")] }

end BaseSkel

namespace BaseSkel

/-! ## Claims C1, C5, C6, C7, C8 -/

/-- C1: for every non-empty string x, `decrypt_phi (encrypt_phi x) = x`, and
the empty values pass through: `encrypt_phi "" = ""` and
`encrypt_phi None = None`.  The Fernet library's round-trip law and the
non-emptiness of its tokens are the two explicit hypotheses. -/
theorem C1_encrypt_decrypt_roundtrip (c : FernetCipher)
    (hrt : ∀ s : String, c.dec (c.enc s) = Except.ok s)
    (hne : ∀ s : String, c.enc s ≠ "") :
    (∀ s : String, s ≠ "" →
      decrypt_phi c (encrypt_phi c (some s)) = Except.ok (some s)) ∧
    encrypt_phi c (some "") = some "" ∧
    encrypt_phi c none = none := by
  refine ⟨?_, rfl, rfl⟩
  intro s hs
  simp only [encrypt_phi, if_neg hs, decrypt_phi, if_neg (hne s), hrt s]

/-- Witness for C1 at the demonstration cipher and the input "John Doe". -/
theorem C1_encrypt_decrypt_roundtrip_witness :
    decrypt_phi demoCipher (encrypt_phi demoCipher (some "John Doe")) =
      Except.ok (some "John Doe") ∧
    encrypt_phi demoCipher (some "") = some "" ∧
    encrypt_phi demoCipher none = none := by
  have h := C1_encrypt_decrypt_roundtrip demoCipher demoCipher_roundtrip
    demoCipher_ne_empty
  exact ⟨h.1 "John Doe" (by decide), h.2.1, h.2.2⟩

/-- C5: whenever the underlying Fernet decryption rejects a ciphertext
(malformed or tampered token), `decrypt_phi` fails with the typed error
carrying only the generic "Invalid encrypted data" message — the underlying
exception detail `msg` is not forwarded. -/
theorem C5_tamper_typed_error (c : FernetCipher) (ct msg : String)
    (hct : ct ≠ "") (hbad : c.dec ct = Except.error msg) :
    decrypt_phi c (some ct) = Except.error "Invalid encrypted data" := by
  simp only [decrypt_phi, if_neg hct, hbad]

/-- Witness for C5: the demonstration cipher rejects the token "X" with
detail "InvalidToken", and `decrypt_phi` reports only the generic error. -/
theorem C5_tamper_typed_error_witness :
    decrypt_phi demoCipher (some "X") = Except.error "Invalid encrypted data" :=
  C5_tamper_typed_error demoCipher "X" "InvalidToken" (by decide) rfl

/-- C6: the code is wrong where the claim says `hash_phi` of a non-empty
string is a 64-character hex SHA-256 digest: since `hashlib` is never
imported in hipaa_compliance.py, every non-empty input makes `hash_phi`
raise `NameError` instead of returning any digest (the repository's own test
`test_hash_phi` in src/backend/test_hipaa_compliance.py asserts the digest
behaviour, so the code contradicts its tests). -/
theorem C6_hash_phi_raises_name_error (s : String) (hs : s ≠ "") :
    hash_phi s = Except.error (PyRuntimeError.nameError "hashlib") := by
  simp [hash_phi, hs]

/-- Witness for C6 at the failing input "abc". -/
theorem C6_hash_phi_raises_name_error_witness :
    hash_phi "abc" = Except.error (PyRuntimeError.nameError "hashlib") :=
  C6_hash_phi_raises_name_error "abc" (by decide)

/-- C7 counterexample: the key "medication" is classified sensitive by
`is_phi_data`'s vocabulary, yet `sanitize_phi_for_logging` passes its value
through unredacted, because its own vocabulary omits that field. -/
theorem C7_sanitize_vocabulary_counterexample :
    is_phi_data [("medication", PyVal.s "aspirin")] = true ∧
    sanitize_phi_for_logging [("medication", PyVal.s "aspirin")] =
      [("medication", PyVal.s "aspirin")] ∧
    PyVal.s "aspirin" ≠ PyVal.s "[PHI_REDACTED]" := by
  refine ⟨by decide, by decide, by decide⟩

/-- C7 amended: `sanitize_phi_for_logging` returns a shallow copy in which
the value of every field whose lower-cased key is in ITS OWN 10-field
vocabulary `phi_fields_sanitize` (a strict subset of the classifier's
vocabulary) is replaced with "[PHI_REDACTED]", and every other field passes
through unchanged. -/
theorem C7_sanitize_redacts_own_vocabulary (data : List (String × PyVal))
    (k : String) (v : PyVal) :
    (k, v) ∈ sanitize_phi_for_logging data ↔
      ∃ v0, (k, v0) ∈ data ∧
        ((phi_fields_sanitize.contains (strToLower k) = true ∧
            v = PyVal.s "[PHI_REDACTED]") ∨
         (phi_fields_sanitize.contains (strToLower k) = false ∧ v = v0)) := by
  simp only [sanitize_phi_for_logging, List.mem_map]
  constructor
  · rintro ⟨⟨k0, v0⟩, hmem, heq⟩
    by_cases hc : phi_fields_sanitize.contains (strToLower k0) = true
    · rw [if_pos hc] at heq
      obtain ⟨hk, hv⟩ := Prod.mk.injEq .. ▸ heq
      subst hk
      exact ⟨v0, hmem, Or.inl ⟨hc, hv.symm⟩⟩
    · rw [if_neg hc] at heq
      obtain ⟨hk, hv⟩ := Prod.mk.injEq .. ▸ heq
      subst hk
      exact ⟨v0, hmem, Or.inr ⟨Bool.not_eq_true _ ▸ hc, hv.symm⟩⟩
  · rintro ⟨v0, hmem, hcase⟩
    rcases hcase with ⟨hc, hv⟩ | ⟨hc, hv⟩
    · exact ⟨(k, v0), hmem, by rw [if_pos hc, hv]⟩
    · exact ⟨(k, v0), hmem, by rw [if_neg (by rw [hc]; simp), hv]⟩

/-- Witness for C7's amended theorem at a concrete record. -/
theorem C7_sanitize_redacts_own_vocabulary_witness :
    ("name", PyVal.s "[PHI_REDACTED]") ∈
      sanitize_phi_for_logging [("name", PyVal.s "John"), ("price", PyVal.i 100)] :=
  (C7_sanitize_redacts_own_vocabulary
      [("name", PyVal.s "John"), ("price", PyVal.i 100)]
      "name" (PyVal.s "[PHI_REDACTED]")).mpr
    ⟨PyVal.s "John", by decide, Or.inl ⟨by decide, rfl⟩⟩

/-- C8: `validate_minimum_necessary` returns the request unchanged for role
"admin", returns the empty list for every unknown role, and on the fields
[name, email, phone, ssn, medical_condition] role "staff" excludes both
`ssn` and `medical_condition` while role "physician" keeps
`medical_condition` but excludes `ssn`. -/
theorem C8_validate_minimum_necessary :
    (∀ fields : List String,
      validate_minimum_necessary fields "admin" = fields) ∧
    (∀ (fields : List String) (role : String),
      role ≠ "admin" → role ≠ "physician" → role ≠ "staff" →
      role ≠ "patient" → validate_minimum_necessary fields role = []) ∧
    validate_minimum_necessary
      ["name", "email", "phone", "ssn", "medical_condition"] "staff" =
      ["name", "email", "phone"] ∧
    validate_minimum_necessary
      ["name", "email", "phone", "ssn", "medical_condition"] "physician" =
      ["name", "email", "phone", "medical_condition"] := by
  refine ⟨fun fields => rfl, ?_, by decide, by decide⟩
  intro fields role h1 h2 h3 h4
  simp only [validate_minimum_necessary, role_permissions,
    if_neg h1, if_neg h2, if_neg h3, if_neg h4]
  simp [List.filter_eq_nil_iff]

/-- Witness for C8 at a concrete unknown role. -/
theorem C8_validate_minimum_necessary_witness :
    validate_minimum_necessary ["name", "ssn"] "guest" = [] :=
  C8_validate_minimum_necessary.2.1 ["name", "ssn"] "guest"
    (by decide) (by decide) (by decide) (by decide)

/-! ## Claim C10 — the size guard of validate_file -/

/-- The extension and MIME checks never produce the 413 error. -/
theorem validate_file_checks_ne_tooLarge (size : Option Nat)
    (filename detected_mime : String) :
    validate_file_checks size filename detected_mime ≠
      Except.error ValidationError.tooLarge := by
  simp only [validate_file_checks]
  split
  · split
    · split <;> simp
    · simp
  · simp

/-- C10: `validate_file` fails with the oversized-file error (413) iff the
reported size attribute is present, truthy (non-zero) and exceeds
`MAX_FILE_SIZE` (50 MiB); in particular a `None` or 0 size never triggers a
size rejection, whatever the stream content. -/
theorem C10_size_rejection_iff (size : Option Nat)
    (filename detected_mime : String) :
    validate_file size filename detected_mime =
        Except.error ValidationError.tooLarge ↔
      ∃ n, size = some n ∧ n ≠ 0 ∧ n > MAX_FILE_SIZE := by
  unfold validate_file
  constructor
  · intro h
    by_cases hf : size_check_fails size = true
    · cases size with
      | none => simp [size_check_fails] at hf
      | some n =>
        refine ⟨n, rfl, ?_, ?_⟩
        · intro h0
          subst h0
          simp [size_check_fails] at hf
        · by_cases h0 : n = 0
          · subst h0
            simp [size_check_fails] at hf
          · simpa [size_check_fails, h0] using hf
    · rw [if_neg hf] at h
      exact absurd h (validate_file_checks_ne_tooLarge size filename detected_mime)
  · rintro ⟨n, rfl, h0, hgt⟩
    have hf : size_check_fails (some n) = true := by
      simp [size_check_fails, h0, decide_eq_true_eq]
      exact hgt
    rw [if_pos hf]

/-- Witness for C10 at a size one byte over the limit. -/
theorem C10_size_rejection_iff_witness :
    validate_file (some 52428801) "big.pdf" "application/pdf" =
      Except.error ValidationError.tooLarge :=
  (C10_size_rejection_iff (some 52428801) "big.pdf" "application/pdf").mpr
    ⟨52428801, rfl, by decide, by decide⟩

/-! ## Claim C2 — retrieve after delete -/

/-- C2: the code is wrong where the claim (and the spec's secure-deletion
guarantee) says a retrieve after a successful delete fails with 404:
`get_file` selects by id with no `upload_status` filter, so after
`delete_file` soft-deletes the row, `get_file` still returns the row (now
marked deleted) instead of the NotFound error.  (`list_files`, by contrast,
does exclude `upload_status='deleted'`, showing the intent.) -/
theorem C2_soft_deleted_row_still_returned :
    delete_file [c2Record] "f1" =
      Except.ok [{ c2Record with upload_status := "deleted" }] ∧
    get_file [{ c2Record with upload_status := "deleted" }] "f1" =
      Except.ok { c2Record with upload_status := "deleted" } ∧
    get_file [{ c2Record with upload_status := "deleted" }] "f1" ≠
      Except.error 404 :=
  ⟨rfl, rfl, fun h => Except.noConfusion h⟩

/-! ## Claim C3 — audit logging never blocks the business operation -/

/-- C3: `log_event` never raises (its except-handler swallows the insert
exception and records a critical line), and an upload whose validation
passed and whose `file_uploads` insert succeeded still returns success even
though the audit-ledger insert throws; the emitted log carries the critical
flag. -/
theorem C3_audit_failure_never_blocks (c : FernetCipher)
    (file : UploadedFileIn) (env : UploadEnv) (cid cat0 : Option String)
    (vres : ValidationResult)
    (hv : validate_file file.size_attr file.filename env.detected_mime =
      Except.ok vres)
    (hrec : env.record_insert_throws = false)
    (ha : env.audit_insert_throws = true) :
    (∀ (e : AuditLog) (t : Bool), ∃ eff, log_event e t = Except.ok eff ∧
      (t = true → eff.critical_logged = true)) ∧
    (∃ resp, (upload_file c file env cid cat0).fst = Except.ok resp) ∧
    (∃ q ∈ (upload_file c file env cid cat0).snd,
      q.snd.critical_logged = true) := by
  refine ⟨?_, ?_, ?_⟩
  · intro e t
    cases t with
    | false => exact ⟨_, rfl, fun h => absurd h (by decide)⟩
    | true => exact ⟨_, rfl, fun _ => rfl⟩
  · simp only [upload_file, hv, hrec, ha, log_event]
    exact ⟨_, rfl⟩
  · simp only [upload_file, hv, hrec, ha, log_event]
    exact ⟨_, List.mem_singleton.mpr rfl, rfl⟩

/-- Witness for C3 at a concrete valid upload with a failing audit insert. -/
theorem C3_audit_failure_never_blocks_witness :
    ∃ resp, (upload_file demoCipher demoUploadIn demoAuditFailEnv
      none none).fst = Except.ok resp :=
  (C3_audit_failure_never_blocks demoCipher demoUploadIn demoAuditFailEnv
    none none ⟨".pdf", "application/pdf", some 1000⟩ rfl rfl rfl).2.1

/-! ## Claim C4 — the phi_involved flag of upload audit events -/

/-- C4 counterexample: uploading `medical_record.pdf` (auto-categorised
`medical_record`, which is in the PHI-sensitive set) while the
`file_uploads` insert throws emits exactly one audit event, whose outcome
is FAILURE and whose `phi_involved` is false — the failure path hard-codes
`phi_involved=False` even for PHI-category uploads, contradicting the
claim's "success or failure" universal. -/
theorem C4_failure_event_phi_flag_counterexample :
    PHI_SENSITIVE_CATEGORIES.contains
      (chosen_category phiUploadIn recordFailEnv none) = true ∧
    (upload_file demoCipher phiUploadIn recordFailEnv none none).snd.map
      (fun q => (q.fst.outcome, q.fst.phi_involved)) = [("FAILURE", false)] :=
  ⟨by decide, by decide⟩

/-- Mime type recorded by a successful validation is the sniffed one. -/
theorem validate_file_ok_mime (size : Option Nat) (filename dm : String)
    (vres : ValidationResult)
    (h : validate_file size filename dm = Except.ok vres) :
    vres.mime_type = dm := by
  unfold validate_file at h
  split at h
  · exact Except.noConfusion h
  · simp only [validate_file_checks] at h
    split at h
    · split at h
      · split at h
        · cases h
          rfl
        · exact Except.noConfusion h
      · cases h
        rfl
    · exact Except.noConfusion h

/-- C4 amended: every audit event emitted by `upload_file` has
`phi_involved = (chosen category ∈ PHI_SENSITIVE_CATEGORIES)` when its
outcome is SUCCESS, but `phi_involved = false` whenever its outcome is
FAILURE, even if the upload's category is PHI-sensitive. -/
theorem C4_phi_flag_per_outcome (c : FernetCipher) (file : UploadedFileIn)
    (env : UploadEnv) (cid cat0 : Option String) :
    ∀ q ∈ (upload_file c file env cid cat0).snd,
      (q.fst.outcome = "FAILURE" → q.fst.phi_involved = false) ∧
      (q.fst.outcome = "SUCCESS" →
        q.fst.phi_involved =
          PHI_SENSITIVE_CATEGORIES.contains
            (chosen_category file env cat0)) := by
  intro q hq
  cases hval : validate_file file.size_attr file.filename env.detected_mime with
  | error e =>
    simp only [upload_file, hval] at hq
    exact absurd hq (List.not_mem_nil q)
  | ok vres =>
    have hm : vres.mime_type = env.detected_mime :=
      validate_file_ok_mime file.size_attr file.filename env.detected_mime
        vres hval
    cases hrec : env.record_insert_throws with
    | true =>
      cases haud : env.audit_insert_throws with
      | false =>
        simp [upload_file, hval, hrec, haud, log_event] at hq
        subst hq
        refine ⟨fun _ => rfl, fun hout => ?_⟩
        simp at hout
      | true =>
        simp [upload_file, hval, hrec, haud, log_event] at hq
        subst hq
        refine ⟨fun _ => rfl, fun hout => ?_⟩
        simp at hout
    | false =>
      cases haud : env.audit_insert_throws with
      | false =>
        simp [upload_file, hval, hrec, haud, log_event] at hq
        subst hq
        refine ⟨fun hout => ?_, fun _ => ?_⟩
        · simp at hout
        · simp [chosen_category, hm]
      | true =>
        simp [upload_file, hval, hrec, haud, log_event] at hq
        subst hq
        refine ⟨fun hout => ?_, fun _ => ?_⟩
        · simp at hout
        · simp [chosen_category, hm]

/-- Witness for C4's amended theorem: the single (SUCCESS) event of a
concrete non-PHI upload carries phi_involved = contains(chosen category). -/
theorem C4_phi_flag_per_outcome_witness :
    c4WitnessPair.fst.phi_involved =
      PHI_SENSITIVE_CATEGORIES.contains
        (chosen_category demoUploadIn allOkEnv none) :=
  (C4_phi_flag_per_outcome demoCipher demoUploadIn allOkEnv none none
    c4WitnessPair (by decide)).2 rfl

/-! ## Claim C9 — idempotence of the retention sweep -/

/-- One loop step only removes subject rows, never adds them. -/
theorem process_retention_rows_sublist (df uf : Nat → Bool)
    (acc : RetentionState × Nat) (r : RetentionRecord) :
    (process_retention df uf acc r).fst.rows.Sublist acc.fst.rows := by
  unfold process_retention
  split
  · exact List.Sublist.refl _
  · split
    · exact List.filter_sublist _
    · exact List.filter_sublist _

/-- The whole sweep only removes subject rows. -/
theorem foldl_process_rows_sublist (df uf : Nat → Bool) :
    ∀ (l : List RetentionRecord) (acc : RetentionState × Nat),
      ((l.foldl (process_retention df uf) acc).fst.rows).Sublist
        acc.fst.rows := by
  intro l
  induction l with
  | nil => intro acc; exact List.Sublist.refl _
  | cons a t ih =>
    intro acc
    exact (ih (process_retention df uf acc a)).trans
      (process_retention_rows_sublist df uf acc a)

/-- Filtering for p after keeping only the non-p elements yields nothing. -/
theorem filter_pos_of_filter_neg {α : Type _} (p : α → Bool) (l : List α) :
    (l.filter (fun a => ! p a)).filter p = [] := by
  induction l with
  | nil => rfl
  | cons a t ih =>
    by_cases h : p a = true
    · simp [List.filter_cons, h, ih]
    · simp [List.filter_cons, h, ih]

/-- A sublist of a list with no p-elements has no p-elements. -/
theorem length_filter_eq_zero_of_sublist {α : Type _} {l1 l2 : List α}
    (p : α → Bool) (h : l1.Sublist l2)
    (h2 : (l2.filter p).length = 0) : (l1.filter p).length = 0 :=
  Nat.le_zero.mp (h2 ▸ (h.filter p).length_le)

/-- After a sweep pass over a snapshot, every snapshot record whose subject
DELETE did not throw has no remaining matching subject row. -/
theorem foldl_process_clears (df uf : Nat → Bool) :
    ∀ (l : List RetentionRecord) (acc : RetentionState × Nat)
      (r : RetentionRecord), r ∈ l → df r.rid = false →
      ((l.foldl (process_retention df uf) acc).fst.rows.filter
        (fun p => subject_matches r p)).length = 0 := by
  intro l
  induction l with
  | nil =>
    intro acc r hr
    exact absurd hr (List.not_mem_nil r)
  | cons a t ih =>
    intro acc r hr hdf
    rcases List.mem_cons.mp hr with heq | hmem
    · subst heq
      have hstep : ((process_retention df uf acc r).fst.rows.filter
          (fun p => subject_matches r p)).length = 0 := by
        unfold process_retention
        rw [if_neg (by simp [hdf])]
        split <;> simp [filter_pos_of_filter_neg]
      exact length_filter_eq_zero_of_sublist _
        (foldl_process_rows_sublist df uf t _) hstep
    · exact ih (process_retention df uf acc a) r hmem hdf

/-- A sweep pass over a snapshot in which every record either fails its
DELETE or has no matching subject row removes nothing. -/
theorem foldl_process_no_new_deletions (df uf : Nat → Bool) :
    ∀ (l : List RetentionRecord) (acc : RetentionState × Nat),
      (∀ r ∈ l, df r.rid = true ∨
        (acc.fst.rows.filter (fun p => subject_matches r p)).length = 0) →
      (l.foldl (process_retention df uf) acc).snd = acc.snd := by
  intro l
  induction l with
  | nil => intro acc _; rfl
  | cons a t ih =>
    intro acc hall
    have hsub : (process_retention df uf acc a).fst.rows.Sublist
        acc.fst.rows := process_retention_rows_sublist df uf acc a
    have hsnd : (process_retention df uf acc a).snd = acc.snd := by
      rcases hall a (List.mem_cons_self a t) with hdf | hzero
      · unfold process_retention
        rw [if_pos hdf]
      · unfold process_retention
        by_cases hdf : df a.rid = true
        · rw [if_pos hdf]
        · rw [if_neg hdf]
          split <;> simp [hzero]
    exact (ih (process_retention df uf acc a) (fun r hr =>
      (hall r (List.mem_cons_of_mem a hr)).imp id
        (fun hz => length_filter_eq_zero_of_sublist _ hsub hz))).trans hsnd

/-- One loop step leaves every retention record either as it was or marked
completed. -/
theorem process_retention_mem (df uf : Nat → Bool)
    (acc : RetentionState × Nat) (a x : RetentionRecord)
    (hx : x ∈ (process_retention df uf acc a).fst.retention) :
    x ∈ acc.fst.retention ∨ x.status = "completed" := by
  unfold process_retention at hx
  split at hx
  · exact Or.inl hx
  · split at hx
    · exact Or.inl hx
    · simp only at hx
      rcases List.mem_map.mp hx with ⟨q, hq, hfq⟩
      by_cases h : (q.rid == a.rid) = true
      · rw [if_pos h] at hfq
        right
        rw [← hfq]
      · rw [if_neg h] at hfq
        left
        rw [← hfq]
        exact hq

/-- The sweep leaves every retention record either as it was or marked
completed. -/
theorem foldl_process_mem (df uf : Nat → Bool) :
    ∀ (l : List RetentionRecord) (acc : RetentionState × Nat)
      (x : RetentionRecord),
      x ∈ (l.foldl (process_retention df uf) acc).fst.retention →
      x ∈ acc.fst.retention ∨ x.status = "completed" := by
  intro l
  induction l with
  | nil =>
    intro acc x hx
    exact Or.inl hx
  | cons a t ih =>
    intro acc x hx
    rcases ih (process_retention df uf acc a) x hx with h | h
    · exact process_retention_mem df uf acc a x h
    · exact Or.inr h

/-- C9: for every store state and every (deterministic) pattern of
per-record DELETE/UPDATE failures, running the sweep twice at the same time
point (so that nothing becomes newly due) removes zero subject rows the
second time; and a retention record with status "completed" is never in the
set any sweep selects. -/
theorem C9_retention_sweep_idempotent (df uf : Nat → Bool) (now : Nat)
    (s : RetentionState) :
    (execute_scheduled_deletions df uf now
      (execute_scheduled_deletions df uf now s).fst).snd = 0 ∧
    ∀ r ∈ selected_records now s, r.status ≠ "completed" := by
  constructor
  · unfold execute_scheduled_deletions
    apply foldl_process_no_new_deletions
    intro r hr
    have hr2 := List.mem_filter.mp hr
    have hdue : retention_due now r = true := hr2.2
    have hsched : r.status = "scheduled" := by
      have := (Bool.and_eq_true _ _).mp hdue
      exact beq_iff_eq.mp this.1
    have hs : r ∈ s.retention := by
      rcases foldl_process_mem df uf (selected_records now s) (s, 0) r
        hr2.1 with h | h
      · exact h
      · rw [hsched] at h
        exact absurd h (by decide)
    have hsel1 : r ∈ selected_records now s :=
      List.mem_filter.mpr ⟨hs, hdue⟩
    by_cases hdf : df r.rid = true
    · exact Or.inl hdf
    · exact Or.inr (foldl_process_clears df uf (selected_records now s)
        (s, 0) r hsel1 (Bool.not_eq_true _ ▸ hdf))
  · intro r hr h
    have hdue : retention_due now r = true := (List.mem_filter.mp hr).2
    have hsched : r.status = "scheduled" := by
      have := (Bool.and_eq_true _ _).mp hdue
      exact beq_iff_eq.mp this.1
    rw [hsched] at h
    exact absurd h (by decide)

/-- Witness for C9 at a concrete one-record state, with no failures. -/
theorem C9_retention_sweep_idempotent_witness :
    (execute_scheduled_deletions (fun _ => false) (fun _ => false) 10
      (execute_scheduled_deletions (fun _ => false) (fun _ => false) 10
        c9State).fst).snd = 0 ∧
    RetentionRecord.status
      { rid := 1, table_name := "contacts", record_id := "c1",
        scheduled_deletion_date := 5, status := "scheduled" } ≠
      "completed" := by
  have h := C9_retention_sweep_idempotent (fun _ => false) (fun _ => false)
    10 c9State
  exact ⟨h.1, h.2 _ (by decide)⟩

end BaseSkel
